import Mathlib

/-!
Verification development for the PostSync payment backend.

We shallowly embed the backend's signature verifiers, webhook gate,
subscription state reconciler, order-amount conversion and the client-side
payment confirmation poller, and prove the behavioural properties stated in
the specification against these embeddings.

The Node `crypto` HMAC-SHA256 used by every verifier is modelled by a full
executable SHA-256 / HMAC implementation over byte lists (FIPS 180-4 /
RFC 2104), so that every theorem about signatures is about the real digest
function, not an abstraction.  All canonical payload strings in this backend
are ASCII, so a string is turned into bytes by taking the code point of each
character.
-/

namespace SHA256

/-- Truncate to a 32-bit word, as every SHA-256 operation is mod 2^32. -/
def w32 (x : Nat) : Nat := x % 4294967296

/-- Right rotation of a 32-bit word by `n` bits. -/
def rotr (n x : Nat) : Nat := w32 ((x >>> n) ||| (x <<< (32 - n)))

/-- Round constants (decimal): fractional parts of the cube roots of the
first 64 primes. -/
def K : List Nat :=
  [1116352408, 1899447441, 3049323471, 3921009573, 961987163,
   1508970993, 2453635748, 2870763221, 3624381080, 310598401,
   607225278, 1426881987, 1925078388, 2162078206, 2614888103,
   3248222580, 3835390401, 4022224774, 264347078, 604807628,
   770255983, 1249150122, 1555081692, 1996064986, 2554220882,
   2821834349, 2952996808, 3210313671, 3336571891, 3584528711,
   113926993, 338241895, 666307205, 773529912, 1294757372,
   1396182291, 1695183700, 1986661051, 2177026350, 2456956037,
   2730485921, 2820302411, 3259730800, 3345764771, 3516065817,
   3600352804, 4094571909, 275423344, 430227734, 506948616,
   659060556, 883997877, 958139571, 1322822218, 1537002063,
   1747873779, 1955562222, 2024104815, 2227730452, 2361852424,
   2428436474, 2756734187, 3204031479, 3329325298]

/-- Initial hash value (decimal): fractional parts of the square roots of
the first 8 primes. -/
def H0 : List Nat :=
  [1779033703, 3144134277, 1013904242, 2773480762,
   1359893119, 2600822924, 528734635, 1541459225]

/-- Big-endian byte encoding of `x` on `n` bytes. -/
def toBytesBE (n x : Nat) : List Nat :=
  (List.range n).map (fun i => (x >>> ((n - 1 - i) * 8)) % 256)

/-- FIPS 180-4 padding: append 0x80, zeros, then the 64-bit big-endian bit
length, so that the total length is a multiple of 64 bytes. -/
def pad (msg : List Nat) : List Nat :=
  let z := (119 - msg.length % 64) % 64
  msg ++ 0x80 :: List.replicate z 0 ++ toBytesBE 8 (msg.length * 8)

/-- Split a byte list into 64-byte blocks. -/
def blocksAux : Nat → List Nat → List (List Nat)
  | 0, _ => []
  | _, [] => []
  | fuel + 1, b :: bs => (b :: bs).take 64 :: blocksAux fuel ((b :: bs).drop 64)

/-- Split a byte list into 64-byte blocks.  The fuel argument only drives the
structural recursion: each step removes at least one byte, so `bs.length`
steps always suffice. -/
def blocks (bs : List Nat) : List (List Nat) := blocksAux bs.length bs

/-- Assemble bytes into big-endian 32-bit words. -/
def toWords : List Nat → List Nat
  | b0 :: b1 :: b2 :: b3 :: rest =>
      (((b0 * 256 + b1) * 256 + b2) * 256 + b3) :: toWords rest
  | _ => []

def smallSigma0 (x : Nat) : Nat := rotr 7 x ^^^ rotr 18 x ^^^ (x >>> 3)

def smallSigma1 (x : Nat) : Nat := rotr 17 x ^^^ rotr 19 x ^^^ (x >>> 10)

def bigSigma0 (x : Nat) : Nat := rotr 2 x ^^^ rotr 13 x ^^^ rotr 22 x

def bigSigma1 (x : Nat) : Nat := rotr 6 x ^^^ rotr 11 x ^^^ rotr 25 x

def ch (x y z : Nat) : Nat := (x &&& y) ^^^ ((x ^^^ 0xffffffff) &&& z)

def maj (x y z : Nat) : Nat := (x &&& y) ^^^ (x &&& z) ^^^ (y &&& z)

/-- Extend the 16 message words to the full 64-entry schedule. -/
def extendSchedule (w : List Nat) : Nat → List Nat
  | 0 => w
  | fuel + 1 =>
      let t := w.length
      let wt := w32 (smallSigma1 (w.getD (t - 2) 0) + w.getD (t - 7) 0 +
                     smallSigma0 (w.getD (t - 15) 0) + w.getD (t - 16) 0)
      extendSchedule (w ++ [wt]) fuel

def msgSchedule (block : List Nat) : List Nat :=
  extendSchedule (toWords block) 48

/-- One compression round on the 8-word working state. -/
def compressRound (st : List Nat) (k w : Nat) : List Nat :=
  match st with
  | [a, b, c, d, e, f, g, h] =>
      let t1 := w32 (h + bigSigma1 e + ch e f g + k + w)
      let t2 := w32 (bigSigma0 a + maj a b c)
      [w32 (t1 + t2), a, b, c, w32 (d + t1), e, f, g]
  | _ => st

/-- Compress one 64-byte block into the running hash value. -/
def compressBlock (h : List Nat) (block : List Nat) : List Nat :=
  let ws := msgSchedule block
  let st := (K.zip ws).foldl (fun st kw => compressRound st kw.1 kw.2) h
  (h.zip st).map (fun p => w32 (p.1 + p.2))

/-- SHA-256 of a byte list, as the 8-word hash value. -/
def sha256Words (msg : List Nat) : List Nat :=
  (blocks (pad msg)).foldl compressBlock H0

/-- SHA-256 of a byte list, as a 32-byte digest. -/
def sha256 (msg : List Nat) : List Nat :=
  (sha256Words msg).foldr (fun w acc => toBytesBE 4 w ++ acc) []

def hexDigit (n : Nat) : Char :=
  if n < 10 then Char.ofNat (48 + n) else Char.ofNat (87 + n)

/-- Lowercase hex rendering of a byte list. -/
def bytesToHex (bs : List Nat) : String :=
  String.mk (bs.foldr (fun b acc => hexDigit (b / 16) :: hexDigit (b % 16) :: acc) [])

/-- RFC 2104 HMAC-SHA256 over byte lists. -/
def hmacSha256 (key msg : List Nat) : List Nat :=
  let k1 := if key.length > 64 then sha256 key else key
  let k2 := k1 ++ List.replicate (64 - k1.length) 0
  sha256 ((k2.map (fun b => b ^^^ 0x5c)) ++
          sha256 ((k2.map (fun b => b ^^^ 0x36)) ++ msg))

/-- Bytes of an ASCII string (code point of each character). -/
def strBytes (s : String) : List Nat := s.data.map Char.toNat

/-- Lowercase-hex HMAC-SHA256 of an ASCII payload string under an ASCII
secret: the model of Node `crypto.createHmac('sha256', secret).update(p).digest('hex')`. -/
def hmacSha256Hex (secret payload : String) : String :=
  bytesToHex (hmacSha256 (strBytes secret) (strBytes payload))

end SHA256

namespace Backend

open SHA256

/-- Coercion of a possibly-absent request field into the string JS template
interpolation produces: `undefined` renders as the string "undefined". -/
def jsStr : Option String → String
  | some s => s
  | none => "undefined"

/-- JS truthiness of a possibly-absent string field: `undefined` and the
empty string are falsy. -/
def truthy : Option String → Bool
  | some s => !(s == "")
  | none => false

/-- Numeric result of the plan catalog credit lookup
`planCredits[planId] || 0` on the identifiers where the JS bracket lookup
produces a number — a catalog key, or any key that misses both the object
literal and its prototype so that `undefined || 0` yields 0.
`getPlanCreditsJs` below is the full model of the lookup including the
prototype chain; `getPlanCreditsJs_agrees` proves this function is its
restriction to the numeric results. -/
def getPlanCredits (planId : String) : Nat :=
  if planId = "plan_Q30DrDwrdv5sUN" then 10
  else if planId = "plan_Q30G5R2vlZl9XS" then 50
  else if planId = "plan_Q30GQUMPYLZMYj" then 150
  else 0

/-- Own property names of `Object.prototype` (ECMA-262 plus Annex B, as in
Node): a bracket lookup on a plain object literal that misses the own keys
reaches these, yielding a truthy function or object rather than
`undefined`. -/
def objectPrototypeMembers : List String :=
  ["constructor", "hasOwnProperty", "isPrototypeOf", "propertyIsEnumerable",
   "toLocaleString", "toString", "valueOf", "__proto__", "__defineGetter__",
   "__defineSetter__", "__lookupGetter__", "__lookupSetter__"]

/-- Value of the JS expression `planCredits[planId] || 0`: either a number,
or a truthy member inherited from `Object.prototype` (which `||` passes
through unchanged). -/
inductive JsCredits where
  | num (n : Nat)
  | inheritedMember (name : String)
deriving DecidableEq

/-- Full model of `getPlanCredits` (`planCredits[planId] || 0`) including
the prototype-chain traversal of the JS bracket lookup: the three own
catalog keys yield their numbers; a key naming an `Object.prototype` member
yields that truthy inherited member; every other key yields `undefined`,
which `|| 0` turns into 0. -/
def getPlanCreditsJs (planId : String) : JsCredits :=
  if planId = "plan_Q30DrDwrdv5sUN" then .num 10
  else if planId = "plan_Q30G5R2vlZl9XS" then .num 50
  else if planId = "plan_Q30GQUMPYLZMYj" then .num 150
  else if planId ∈ objectPrototypeMembers then .inheritedMember planId
  else .num 0

/-- Error raised by `FieldValue.increment` when its argument is not a
number (the inherited `Object.prototype` member a prototype-traversing
lookup returns). -/
def incrementTypeError : String :=
  "FieldValue.increment requires a numeric argument"

/-- Value stored in a timestamp-like Firestore field. `serverNow` stands for
`FieldValue.serverTimestamp()`; `date n` for a `Date` with epoch value `n`
in milliseconds. -/
inductive TsValue where
  | unset
  | serverNow
  | date (ms : Nat)
deriving DecidableEq

/-- The embedded `subscription` object of a user document. -/
structure SubRecord where
  id : String
  status : String
  plan : String
  startedAt : TsValue
  nextBillingDate : TsValue
  startAt : Nat
  currentEnd : Nat
  type : String
  paymentId : Option String
  cancelledAt : TsValue
  pausedAt : TsValue
  resumedAt : TsValue
  lastChargeDate : TsValue
deriving DecidableEq

/-- A user document: the subscription sub-record plus the credits counter. -/
structure UserDoc where
  subscription : SubRecord
  credits : Nat
deriving DecidableEq

/-- The slice of a gateway subscription object the handlers read:
`plan_id`, `current_end` (epoch seconds) and `notes.user_id`. -/
structure GatewaySub where
  plan_id : String
  current_end : Nat
  notes_user_id : String
deriving DecidableEq

/-- Response of POST /api/razorpay-verify. -/
inductive VerifyResp where
  | missingParams
  | invalidSignature
  | verified
deriving DecidableEq

def VerifyResp.statusCode : VerifyResp → Nat
  | .missingParams => 400
  | .invalidSignature => 400
  | .verified => 200

def VerifyResp.success : VerifyResp → Bool
  | .verified => true
  | _ => false

/-- POST /api/razorpay-verify: requires all three fields truthy, then accepts
iff the supplied signature equals the hex HMAC-SHA256 of `orderId|paymentId`
under the API secret.  The endpoint touches no stored state. -/
def razorpayVerify (secret : String)
    (orderId paymentId signature : Option String) : VerifyResp :=
  if !truthy orderId || !truthy paymentId || !truthy signature then
    .missingParams
  else
    let generatedSignature := hmacSha256Hex secret (jsStr orderId ++ "|" ++ jsStr paymentId)
    if !(signature == some generatedSignature) then .invalidSignature
    else .verified

/-- Response of POST /api/update-user-credits. -/
inductive CreditsResp where
  | invalidSignature
  | verified
deriving DecidableEq

def CreditsResp.statusCode : CreditsResp → Nat
  | .invalidSignature => 400
  | .verified => 200

def CreditsResp.success : CreditsResp → Bool
  | .verified => true
  | _ => false

/-- POST /api/update-user-credits: if the supplied signature is the literal
string `upi_payment` the signature check is skipped and the endpoint reports
success; otherwise it accepts iff the signature equals the hex HMAC-SHA256 of
`orderId|paymentId` under the API secret.  The endpoint never writes to the
store (credits are said to be updated by the frontend). -/
def updateUserCredits (secret : String)
    (paymentId orderId signature : Option String) : CreditsResp :=
  if signature == some "upi_payment" then .verified
  else
    let generatedSignature := hmacSha256Hex secret (jsStr orderId ++ "|" ++ jsStr paymentId)
    if !(signature == some generatedSignature) then .invalidSignature
    else .verified

/-- Response of POST /api/verify-subscription (src/server.js variant). -/
inductive SubVerifyResp where
  | missingParams
  | invalidSignature
  | activated (nextBillingDateMs currentEnd : Nat)
deriving DecidableEq

def SubVerifyResp.statusCode : SubVerifyResp → Nat
  | .missingParams => 400
  | .invalidSignature => 400
  | .activated _ _ => 200

def SubVerifyResp.success : SubVerifyResp → Bool
  | .activated _ _ => true
  | _ => false

/-- POST /api/verify-subscription as implemented in src/server.js: after the
presence and signature gates (canonical string `paymentId|subscriptionId`),
the handler fetches the subscription from the gateway (`sub`, an input here)
and updates the user document of `sub.notes_user_id`: status `active`, plan
and billing fields from the gateway object, payment id recorded, credits
incremented by the plan's grant.  The function returns the response together
with the updated user document; on every non-success path the document is
returned unchanged. -/
def verifySubscription (secret : String)
    (paymentId subscriptionId signature : Option String)
    (sub : GatewaySub) (user : UserDoc) : SubVerifyResp × UserDoc :=
  if !truthy paymentId || !truthy subscriptionId || !truthy signature then
    (.missingParams, user)
  else
    let generatedSignature :=
      hmacSha256Hex secret (jsStr paymentId ++ "|" ++ jsStr subscriptionId)
    if !(signature == some generatedSignature) then (.invalidSignature, user)
    else
      (.activated (sub.current_end * 1000) sub.current_end,
       { user with
         subscription := { user.subscription with
           id := jsStr subscriptionId
           status := "active"
           plan := sub.plan_id
           startedAt := .serverNow
           nextBillingDate := .date (sub.current_end * 1000)
           currentEnd := sub.current_end
           type := "monthly"
           paymentId := some (jsStr paymentId) }
         credits := user.credits + getPlanCredits sub.plan_id })

/-- The `payload.subscription` slice read by `handleSubscriptionCharged`. -/
structure ChargedSubscription where
  plan_id : String
  current_end : Nat
  notes_user_id : String
deriving DecidableEq

/-- Webhook handler for `subscription.charged`: advances the billing fields,
stamps the charge date and increments credits by the plan's grant. -/
def handleSubscriptionCharged (p : ChargedSubscription) (u : UserDoc) : UserDoc :=
  { u with
    subscription := { u.subscription with
      nextBillingDate := .date (p.current_end * 1000)
      currentEnd := p.current_end
      lastChargeDate := .serverNow }
    credits := u.credits + getPlanCredits p.plan_id }

/-- Webhook handler for `subscription.charged` with the credit lookup
modelled in full (`getPlanCreditsJs`): when the lookup yields a number the
update succeeds as in `handleSubscriptionCharged`; when it yields a member
inherited from `Object.prototype`, `FieldValue.increment` rejects the
non-numeric argument and the update raises instead of writing. -/
def handleSubscriptionChargedJs (p : ChargedSubscription) (u : UserDoc) :
    Except String UserDoc :=
  match getPlanCreditsJs p.plan_id with
  | .num n =>
      .ok { u with
        subscription := { u.subscription with
          nextBillingDate := .date (p.current_end * 1000)
          currentEnd := p.current_end
          lastChargeDate := .serverNow }
        credits := u.credits + n }
  | .inheritedMember _ => .error incrementTypeError

/-- Webhook handler for `subscription.cancelled`. -/
def handleSubscriptionCancelled (u : UserDoc) : UserDoc :=
  { u with subscription := { u.subscription with
      status := "cancelled"
      cancelledAt := .serverNow } }

/-- Webhook handler for `subscription.paused`. -/
def handleSubscriptionPaused (u : UserDoc) : UserDoc :=
  { u with subscription := { u.subscription with
      status := "paused"
      pausedAt := .serverNow } }

/-- Webhook handler for `subscription.resumed`. -/
def handleSubscriptionResumed (u : UserDoc) : UserDoc :=
  { u with subscription := { u.subscription with
      status := "active"
      resumedAt := .serverNow } }

/-- The fixed mock/test subscription identifiers recognized by the
cancel-subscription endpoint (src/unnamed/part_002). -/
def mockSubscriptionIds : List String :=
  ["test-subscription-id", "legacy-subscription", "manual-subscription-12345"]

/-- Response of POST /api/cancel-subscription (src/unnamed/part_002 variant). -/
inductive CancelResp where
  | missingParams
  | mockCancelled (subId : String)
  | cancelled
  | razorpayError
deriving DecidableEq

def CancelResp.success : CancelResp → Bool
  | .mockCancelled _ => true
  | .cancelled => true
  | _ => false

/-- Outcome of the cancel-subscription handler: the response, whether the
gateway client was invoked, and the (never modified) user document. -/
structure CancelOutcome where
  resp : CancelResp
  gatewayCalled : Bool
  user : UserDoc
deriving DecidableEq

/-- POST /api/cancel-subscription as implemented in src/unnamed/part_002:
after the presence gate, a subscription id in `mockSubscriptionIds` returns
success without calling the gateway; otherwise the gateway cancel call is
made (its success modelled by `gatewayOk`).  This variant never writes to
the document store. -/
def cancelSubscription (subscriptionId userId : Option String)
    (gatewayOk : Bool) (user : UserDoc) : CancelOutcome :=
  if !truthy subscriptionId || !truthy userId then
    ⟨.missingParams, false, user⟩
  else if mockSubscriptionIds.contains (jsStr subscriptionId) then
    ⟨.mockCancelled (jsStr subscriptionId), false, user⟩
  else if gatewayOk then ⟨.cancelled, true, user⟩
  else ⟨.razorpayError, true, user⟩

/-- POST /api/razorpay-order amount conversion: the handler submits
`amount * 100` to the gateway, with no rounding (`amount` is a JS number,
idealized here as a rational; IEEE-754 rounding would only move the product
further from an integer). -/
def razorpayOrderAmount (amount : ℚ) : ℚ := amount * 100

/-- POST /api/razorpay-order: a falsy `amount` (absent or zero) is rejected,
otherwise `amount * 100` is submitted to the gateway. -/
def razorpayOrder (amount : Option ℚ) : Option ℚ :=
  match amount with
  | none => none
  | some a => if a = 0 then none else some (razorpayOrderAmount a)

mutual

/-- JSON values, restricted to the shapes the webhook path manipulates:
strings (without escape sequences) and objects. -/
inductive Json where
  | str (s : String)
  | obj (fields : JFields)

/-- Ordered field list of a JSON object. -/
inductive JFields where
  | nil
  | cons (key : String) (value : Json) (rest : JFields)

end

/-- Opening brace character. -/
def lbrace : Char := Char.ofNat 123

/-- Closing brace character. -/
def rbrace : Char := Char.ofNat 125

mutual

/-- Model of `JSON.stringify` on the `Json` fragment: no added whitespace,
fields in order, strings quoted verbatim. -/
def Json.stringify : Json → String
  | .str s => "\"" ++ s ++ "\""
  | .obj fs => String.mk [lbrace] ++ JFields.stringifyFields fs ++ String.mk [rbrace]

/-- Comma-separated `key:value` rendering of object fields. -/
def JFields.stringifyFields : JFields → String
  | .nil => ""
  | .cons k v .nil => "\"" ++ k ++ "\":" ++ Json.stringify v
  | .cons k v (.cons k2 v2 rest) =>
      "\"" ++ k ++ "\":" ++ Json.stringify v ++ "," ++
        JFields.stringifyFields (.cons k2 v2 rest)

end

/-- Field lookup in an object; `none` on non-objects or missing keys. -/
def JFields.lookup : JFields → String → Option Json
  | .nil, _ => none
  | .cons k v rest, key => if k == key then some v else JFields.lookup rest key

def Json.getField : Json → String → Option Json
  | .obj fs, key => JFields.lookup fs key
  | _, _ => none

/-- Skip JSON whitespace. -/
def skipWs : List Char → List Char
  | c :: cs =>
      if c == ' ' || c == '\t' || c == '\n' || c == '\r' then skipWs cs
      else c :: cs
  | [] => []

/-- Read the characters of a JSON string after the opening quote, up to the
closing quote (escape sequences are outside the modelled fragment). -/
def parseStringChars : List Char → Option (List Char × List Char)
  | [] => none
  | c :: cs =>
      if c == '"' then some ([], cs)
      else
        match parseStringChars cs with
        | some (acc, rest) => some (c :: acc, rest)
        | none => none

mutual

/-- Recursive-descent model of the fragment of `JSON.parse` (the body parser
behind `express.json()`) needed here: strings and objects, with arbitrary
whitespace between tokens.  The fuel only drives the structural recursion;
`parseVal (s.length + 1)` can never exhaust it. -/
def parseVal : Nat → List Char → Option (Json × List Char)
  | 0, _ => none
  | fuel + 1, cs =>
      match skipWs cs with
      | [] => none
      | c :: rest =>
          if c == '"' then
            match parseStringChars rest with
            | some (chars, rest1) => some (.str (String.mk chars), rest1)
            | none => none
          else if c == lbrace then parseFields fuel rest
          else none

/-- Parse object fields after the opening brace, consuming the closing brace. -/
def parseFields : Nat → List Char → Option (Json × List Char)
  | 0, _ => none
  | fuel + 1, cs =>
      match skipWs cs with
      | [] => none
      | c :: rest =>
          if c == rbrace then some (.obj .nil, rest)
          else if c == '"' then
            match parseStringChars rest with
            | some (keyChars, rest1) =>
                match skipWs rest1 with
                | ':' :: rest2 =>
                    match parseVal fuel rest2 with
                    | some (v, rest3) =>
                        match skipWs rest3 with
                        | ',' :: rest4 =>
                            (match parseFields fuel rest4 with
                             | some (.obj fs, rest5) =>
                                 some (.obj (.cons (String.mk keyChars) v fs), rest5)
                             | _ => none)
                        | c2 :: rest4 =>
                            if c2 == rbrace then
                              some (.obj (.cons (String.mk keyChars) v .nil), rest4)
                            else none
                        | [] => none
                    | none => none
                | _ => none
            | none => none
          else none

end

/-- Model of `JSON.parse` on a whole input string. -/
def jsonParse (s : String) : Option Json :=
  match parseVal (s.length + 1) s.data with
  | some (v, rest) => if skipWs rest == [] then some v else none
  | none => none

/-- The webhook events that have a handler in the dispatch switch. -/
def webhookEvents : List String :=
  ["subscription.charged", "subscription.cancelled",
   "subscription.paused", "subscription.resumed"]

/-- Outcome of POST /api/webhooks/razorpay: the HTTP status and whether one
of the four event handlers was invoked. -/
structure WebhookOutcome where
  statusCode : Nat
  handlerInvoked : Bool
deriving DecidableEq

/-- POST /api/webhooks/razorpay: a falsy webhook secret is a configuration
error (500).  Otherwise the handler computes the hex HMAC-SHA256 of
`JSON.stringify(req.body)` — the re-serialization of the already parsed
body, not the raw received bytes — under the webhook secret, rejects with
400 when the `x-razorpay-signature` header differs, and otherwise responds
200, dispatching to a handler when `body.event` is one of the four known
events. -/
def webhooksRazorpay (webhookSecret : Option String) (body : Json)
    (sigHeader : Option String) : WebhookOutcome :=
  if !truthy webhookSecret then ⟨500, false⟩
  else
    let digest := hmacSha256Hex (jsStr webhookSecret) (Json.stringify body)
    if !(sigHeader == some digest) then ⟨400, false⟩
    else
      ⟨200,
       match Json.getField body "event" with
       | some (.str e) => webhookEvents.contains e
       | _ => false⟩

/-- Status of a stored payment record. -/
inductive PayStatus where
  | PENDING
  | SUCCESS
  | FAILED
deriving DecidableEq

/-- The fields of a payment record the poller reads. -/
structure PaymentRecord where
  status : PayStatus
  transactionId : Option String
deriving DecidableEq

/-- Result resolved by `verifyUPIPayment`. -/
inductive PollResult where
  | ok (transactionId : Option String)
  | failed
  | timeout
deriving DecidableEq

def PollResult.success : PollResult → Bool
  | .ok _ => true
  | _ => false

def PollResult.message : PollResult → String
  | .ok _ => "Payment successful"
  | .failed => "Payment failed"
  | .timeout => "Payment verification timeout"

/-- One iteration of `checkPayment` in `PaymentService.verifyUPIPayment`:
`reads k` is the payment record observed by the k-th read (counting from 0;
`none` when the document does not exist).  A SUCCESS or FAILED status
resolves immediately; otherwise the attempt counter `n + 1` is checked
against the bound 60 and the next read is scheduled.  The pair returned is
the resolved result together with the number of reads performed.  The fuel
only drives the structural recursion: starting from `pollAux reads 60 0`,
the bound fires before the fuel can run out. -/
def pollAux (reads : Nat → Option PaymentRecord) : Nat → Nat → PollResult × Nat
  | 0, n => (.timeout, n)
  | fuel + 1, n =>
      let terminal : Option PollResult :=
        match reads n with
        | some d =>
            if d.status = .SUCCESS then some (.ok d.transactionId)
            else if d.status = .FAILED then some .failed
            else none
        | none => none
      match terminal with
      | some r => (r, n + 1)
      | none =>
          if n + 1 ≥ 60 then (.timeout, n + 1)
          else pollAux reads fuel (n + 1)

/-- Result resolved by `PaymentService.verifyUPIPayment` on a given trace of
payment-record reads. -/
def verifyUPIPayment (reads : Nat → Option PaymentRecord) : PollResult :=
  (pollAux reads 60 0).1

/-- Number of reads the poller performs on a given trace. -/
def pollReadCount (reads : Nat → Option PaymentRecord) : Nat :=
  (pollAux reads 60 0).2

/-- A read observation that keeps the poller waiting: a missing record or a
record still in PENDING status. -/
def stillPending (r : Option PaymentRecord) : Prop :=
  r = none ∨ ∃ d, r = some d ∧ d.status = .PENDING

/-- Sample user document used to instantiate witnesses. -/
def sampleUser : UserDoc :=
  { subscription :=
      { id := "sub_1", status := "created", plan := "plan_Q30DrDwrdv5sUN"
        startedAt := .unset, nextBillingDate := .unset, startAt := 0
        currentEnd := 0, type := "monthly", paymentId := none
        cancelledAt := .unset, pausedAt := .unset, resumedAt := .unset
        lastChargeDate := .unset }
    credits := 3 }

/-- Sample gateway subscription object used to instantiate witnesses. -/
def sampleSub : GatewaySub :=
  { plan_id := "plan_Q30G5R2vlZl9XS", current_end := 1750000000, notes_user_id := "user_1" }

end Backend

namespace SHA256

theorem compressRound_length (st : List Nat) (k w : Nat) :
    (compressRound st k w).length = st.length := by
  unfold compressRound
  split <;> simp

theorem foldl_compressRound_length (l : List (Nat × Nat)) (st : List Nat) :
    (l.foldl (fun st kw => compressRound st kw.1 kw.2) st).length = st.length := by
  induction l generalizing st with
  | nil => rfl
  | cons a l ih => simp [List.foldl_cons, ih, compressRound_length]

theorem compressBlock_length (h b : List Nat) :
    (compressBlock h b).length = h.length := by
  simp [compressBlock, List.length_zip, foldl_compressRound_length]

theorem foldl_compressBlock_length (bl : List (List Nat)) (h : List Nat) :
    (bl.foldl compressBlock h).length = h.length := by
  induction bl generalizing h with
  | nil => rfl
  | cons b bl ih => simp [List.foldl_cons, ih, compressBlock_length]

theorem sha256Words_length (m : List Nat) : (sha256Words m).length = 8 := by
  simp [sha256Words, foldl_compressBlock_length, H0]

theorem toBytesBE_length (n x : Nat) : (toBytesBE n x).length = n := by
  simp [toBytesBE]

theorem foldr_toBytes_length (l : List Nat) :
    (l.foldr (fun w acc => toBytesBE 4 w ++ acc) []).length = 4 * l.length := by
  induction l with
  | nil => rfl
  | cons a l ih => simp [List.foldr_cons, ih, toBytesBE_length]; ring

theorem sha256_length (m : List Nat) : (sha256 m).length = 32 := by
  simp [sha256, foldr_toBytes_length, sha256Words_length]

theorem hexFoldr_length (bs : List Nat) :
    (bs.foldr (fun b acc => hexDigit (b / 16) :: hexDigit (b % 16) :: acc) []).length
      = 2 * bs.length := by
  induction bs with
  | nil => rfl
  | cons a bs ih => simp [List.foldr_cons, ih]; ring

theorem bytesToHex_length (bs : List Nat) :
    (bytesToHex bs).length = 2 * bs.length := by
  show (String.mk _).length = _
  simp [bytesToHex, String.length, hexFoldr_length]

/-- Every digest this backend compares signatures against is 64 characters
long; in particular it is never a short literal such as `upi_payment`. -/
theorem hmacSha256Hex_length (k m : String) : (hmacSha256Hex k m).length = 64 := by
  simp [hmacSha256Hex, hmacSha256, bytesToHex_length, sha256_length]

theorem hmacSha256Hex_ne_of_length {s : String} (k m : String)
    (h : s.length ≠ 64) : s ≠ hmacSha256Hex k m := by
  intro he
  exact h (he ▸ hmacSha256Hex_length k m)

end SHA256

namespace Backend

theorem truthy_of_length_pos {s : String} (h : 0 < s.length) :
    truthy (some s) = true := by
  simp only [truthy, Bool.not_eq_true', beq_eq_false_iff_ne, ne_eq]
  intro he
  subst he
  simp at h

theorem truthy_hmac (k m : String) :
    truthy (some (SHA256.hmacSha256Hex k m)) = true :=
  truthy_of_length_pos (by rw [SHA256.hmacSha256Hex_length]; omega)

theorem pollAux_step_pending (reads : Nat → Option PaymentRecord) (fuel n : Nat)
    (h : stillPending (reads n)) (hlt : n + 1 < 60) :
    pollAux reads (fuel + 1) n = pollAux reads fuel (n + 1) := by
  have h60 : ¬ (n + 1 ≥ 60) := by omega
  rcases h with h | ⟨d, hd, hs⟩ <;> simp [pollAux, *]

theorem pollAux_success (reads : Nat → Option PaymentRecord) (fuel n : Nat)
    (d : PaymentRecord) (hd : reads n = some d) (hs : d.status = .SUCCESS) :
    pollAux reads (fuel + 1) n = (.ok d.transactionId, n + 1) := by
  simp [pollAux, hd, hs]

theorem pollAux_failed (reads : Nat → Option PaymentRecord) (fuel n : Nat)
    (d : PaymentRecord) (hd : reads n = some d) (hs : d.status = .FAILED) :
    pollAux reads (fuel + 1) n = (.failed, n + 1) := by
  simp [pollAux, hd, hs]

theorem pollAux_all_pending (reads : Nat → Option PaymentRecord)
    (h : ∀ k, stillPending (reads k)) :
    ∀ fuel n, n + fuel = 60 → 0 < fuel → pollAux reads fuel n = (.timeout, 60) := by
  intro fuel
  induction fuel with
  | zero => omega
  | succ f ih =>
      intro n hsum _
      rcases Nat.eq_zero_or_pos f with hf | hf
      · subst hf
        have hn : n + 1 = 60 := by omega
        rcases h n with hnone | ⟨d, hd, hs⟩
        · simp [pollAux, hnone, hn]
        · simp [pollAux, hd, hs, hn]
      · have hlt : n + 1 < 60 := by omega
        rw [pollAux_step_pending reads f n (h n) hlt]
        exact ih (n + 1) (by omega) hf

/-- C3: the order-creation handler submits `amount * 100` to the gateway
with no rounding: at `amount = 19.995` it submits exactly `1999.5` minor
units — not the nearest integer `2000` required by the specification, and
not an integer at all. -/
theorem order_amount_submitted_unrounded :
    razorpayOrder (some (19995 / 1000 : ℚ)) = some ((3999 : ℚ) / 2)
    ∧ round ((3999 : ℚ) / 2) = 2000
    ∧ ((3999 : ℚ) / 2) ≠ 2000
    ∧ ¬ ∃ n : ℤ, ((3999 : ℚ) / 2) = (n : ℚ) := by
  refine ⟨?_, ?_, by norm_num, ?_⟩
  · have hz : (19995 / 1000 : ℚ) ≠ 0 := by norm_num
    simp only [razorpayOrder, razorpayOrderAmount, if_neg hz]
    norm_num
  · rw [round_eq]
    norm_num
  · rintro ⟨n, hn⟩
    have h2 : (3999 : ℚ) = 2 * (n : ℚ) := by
      field_simp at hn
      linarith
    have h3 : (3999 : ℤ) = 2 * n := by exact_mod_cast h2
    omega

/-- C4: behaviour of the payment confirmation poller.  A record read as
SUCCESS on the 3rd read terminates the poll at that read with a success
result carrying the record's transaction id; a trace that never leaves
PENDING (or never exists) is read exactly 60 times and then resolves the
TIMEOUT result; a FAILED first read resolves the failure result after that
single read.  The read counts also show no further read follows a terminal
state. -/
theorem verifyUPIPayment_poll_behaviour (reads : Nat → Option PaymentRecord) :
    (∀ d, stillPending (reads 0) → stillPending (reads 1) →
        reads 2 = some d → d.status = .SUCCESS →
        verifyUPIPayment reads = .ok d.transactionId ∧ pollReadCount reads = 3)
    ∧ ((∀ k, stillPending (reads k)) →
        verifyUPIPayment reads = .timeout ∧ pollReadCount reads = 60)
    ∧ (∀ d, reads 0 = some d → d.status = .FAILED →
        verifyUPIPayment reads = .failed ∧ pollReadCount reads = 1) := by
  refine ⟨?_, ?_, ?_⟩
  · intro d h0 h1 h2 hs
    have e1 : pollAux reads 60 0 = pollAux reads 59 1 :=
      pollAux_step_pending reads 59 0 h0 (by omega)
    have e2 : pollAux reads 59 1 = pollAux reads 58 2 :=
      pollAux_step_pending reads 58 1 h1 (by omega)
    have e3 : pollAux reads 58 2 = (.ok d.transactionId, 3) :=
      pollAux_success reads 57 2 d h2 hs
    have e : pollAux reads 60 0 = (.ok d.transactionId, 3) := by
      rw [e1, e2, e3]
    exact ⟨congrArg Prod.fst e, congrArg Prod.snd e⟩
  · intro h
    have e := pollAux_all_pending reads h 60 0 (by omega) (by omega)
    exact ⟨congrArg Prod.fst e, congrArg Prod.snd e⟩
  · intro d h0 hs
    have e : pollAux reads 60 0 = (.failed, 1) :=
      pollAux_failed reads 59 0 d h0 hs
    exact ⟨congrArg Prod.fst e, congrArg Prod.snd e⟩

/-- C4 witness: the poller evaluated on three concrete read traces — a flip
to SUCCESS on the 3rd read, a perpetually missing record, and an immediate
FAILED record. -/
theorem verifyUPIPayment_poll_behaviour_witness :
    verifyUPIPayment (fun n => if n < 2 then some ⟨.PENDING, none⟩
        else some ⟨.SUCCESS, some "tx9"⟩) = .ok (some "tx9")
    ∧ pollReadCount (fun n => if n < 2 then some ⟨.PENDING, none⟩
        else some ⟨.SUCCESS, some "tx9"⟩) = 3
    ∧ verifyUPIPayment (fun _ => none) = .timeout
    ∧ pollReadCount (fun _ => none) = 60
    ∧ verifyUPIPayment (fun _ => some ⟨.FAILED, none⟩) = .failed
    ∧ pollReadCount (fun _ => some ⟨.FAILED, none⟩) = 1 := by
  have hA := (verifyUPIPayment_poll_behaviour (fun n =>
      if n < 2 then some ⟨.PENDING, none⟩ else some ⟨.SUCCESS, some "tx9"⟩)).1
    ⟨.SUCCESS, some "tx9"⟩ (Or.inr ⟨⟨.PENDING, none⟩, by simp, rfl⟩)
    (Or.inr ⟨⟨.PENDING, none⟩, by simp, rfl⟩) (by simp) rfl
  have hB := (verifyUPIPayment_poll_behaviour (fun _ => none)).2.1
    (fun _ => Or.inl rfl)
  have hC := (verifyUPIPayment_poll_behaviour (fun _ => some ⟨.FAILED, none⟩)).2.2
    ⟨.FAILED, none⟩ rfl rfl
  exact ⟨hA.1, hA.2, hB.1, hB.2, hC.1, hC.2⟩

/-- C5: the poller provides no cancellation path — `verifyUPIPayment` is a
function of the read trace alone, with no cancellation input, and on a trace
that stays PENDING it performs all 60 reads (in particular the 2nd read
always happens after a non-terminal 1st read, and a timer is re-armed after
every non-terminal read up to the bound). -/
theorem poller_has_no_cancellation :
    verifyUPIPayment (fun _ => some ⟨.PENDING, none⟩) = .timeout
    ∧ pollReadCount (fun _ => some ⟨.PENDING, none⟩) = 60 := by
  have e := pollAux_all_pending (fun _ => some ⟨.PENDING, none⟩)
    (fun _ => Or.inr ⟨⟨.PENDING, none⟩, rfl, rfl⟩) 60 0 (by omega) (by omega)
  exact ⟨congrArg Prod.fst e, congrArg Prod.snd e⟩

/-- C6: applying the `subscription.charged` handler twice with the same
payload increments the user's credits by exactly twice the plan's credit
grant — no deduplication is performed. -/
theorem charged_event_twice_double_increments
    (p : ChargedSubscription) (u : UserDoc) :
    (handleSubscriptionCharged p (handleSubscriptionCharged p u)).credits
      = u.credits + 2 * getPlanCredits p.plan_id := by
  simp [handleSubscriptionCharged]
  ring

theorem getPlanCreditsJs_agrees (planId : String) (n : Nat)
    (h : getPlanCreditsJs planId = .num n) : getPlanCredits planId = n := by
  revert h
  simp only [getPlanCreditsJs, getPlanCredits]
  split_ifs <;> simp_all

theorem handleSubscriptionChargedJs_agrees (p : ChargedSubscription)
    (u : UserDoc) (n : Nat) (h : getPlanCreditsJs p.plan_id = .num n) :
    handleSubscriptionChargedJs p u = .ok (handleSubscriptionCharged p u) := by
  have ha := getPlanCreditsJs_agrees p.plan_id n h
  simp [handleSubscriptionChargedJs, handleSubscriptionCharged, h, ha]

/-- C9 (amended): for every plan identifier that is neither a catalog key
nor the name of an `Object.prototype` member, the credit lookup returns 0
and a charged event for it is a silent no-op on the credits counter; but
for an identifier naming an inherited `Object.prototype` member the bracket
lookup returns that truthy member rather than 0, and the charged handler's
credits increment raises an error instead of writing. -/
theorem getPlanCredits_unknown_plan_behaviour (planId : String)
    (hcat : planId ∉ ["plan_Q30DrDwrdv5sUN", "plan_Q30G5R2vlZl9XS", "plan_Q30GQUMPYLZMYj"]) :
    (planId ∉ objectPrototypeMembers →
      getPlanCreditsJs planId = .num 0
      ∧ ∀ (p : ChargedSubscription) (u : UserDoc), p.plan_id = planId →
          handleSubscriptionChargedJs p u = .ok (handleSubscriptionCharged p u)
          ∧ (handleSubscriptionCharged p u).credits = u.credits)
    ∧ (planId ∈ objectPrototypeMembers →
      getPlanCreditsJs planId = .inheritedMember planId
      ∧ ∀ (p : ChargedSubscription) (u : UserDoc), p.plan_id = planId →
          handleSubscriptionChargedJs p u = .error incrementTypeError) := by
  simp only [List.mem_cons, List.not_mem_nil, or_false, not_or] at hcat
  obtain ⟨h1, h2, h3⟩ := hcat
  constructor
  · intro hproto
    have hz : getPlanCreditsJs planId = .num 0 := by
      simp [getPlanCreditsJs, h1, h2, h3, hproto]
    refine ⟨hz, ?_⟩
    intro p u hp
    have hz' : getPlanCreditsJs p.plan_id = .num 0 := hp ▸ hz
    refine ⟨handleSubscriptionChargedJs_agrees p u 0 hz', ?_⟩
    simp [handleSubscriptionCharged, getPlanCreditsJs_agrees p.plan_id 0 hz']
  · intro hproto
    have hm : getPlanCreditsJs planId = .inheritedMember planId := by
      simp [getPlanCreditsJs, h1, h2, h3, hproto]
    refine ⟨hm, ?_⟩
    intro p u hp
    have hm' : getPlanCreditsJs p.plan_id = .inheritedMember planId := hp ▸ hm
    simp [handleSubscriptionChargedJs, hm']

/-- C9 witness: the amended behaviour evaluated at the unknown identifier
`plan_unknown` (lookup 0, charged event a no-op on credits) and at the
prototype-member identifier `toString` (lookup the inherited member,
charged event an error). -/
theorem getPlanCredits_unknown_plan_behaviour_witness :
    getPlanCreditsJs "plan_unknown" = .num 0
    ∧ handleSubscriptionChargedJs ⟨"plan_unknown", 5, "user_1"⟩ sampleUser
        = .ok (handleSubscriptionCharged ⟨"plan_unknown", 5, "user_1"⟩ sampleUser)
    ∧ (handleSubscriptionCharged ⟨"plan_unknown", 5, "user_1"⟩ sampleUser).credits
        = sampleUser.credits
    ∧ getPlanCreditsJs "toString" = .inheritedMember "toString"
    ∧ handleSubscriptionChargedJs ⟨"toString", 5, "user_1"⟩ sampleUser
        = .error incrementTypeError := by
  have hu := (getPlanCredits_unknown_plan_behaviour "plan_unknown" (by decide)).1
    (by decide)
  have ht := (getPlanCredits_unknown_plan_behaviour "toString" (by decide)).2
    (by decide)
  exact ⟨hu.1, (hu.2 ⟨"plan_unknown", 5, "user_1"⟩ sampleUser rfl).1,
         (hu.2 ⟨"plan_unknown", 5, "user_1"⟩ sampleUser rfl).2,
         ht.1, ht.2 ⟨"toString", 5, "user_1"⟩ sampleUser rfl⟩

/-- C9 counterexample: the plan identifier `toString` is outside the
catalog, yet the lookup `planCredits[planId] || 0` returns the truthy
member inherited from `Object.prototype` rather than 0, and the charged
handler's credits increment raises an error instead of being a silent
no-op — refuting the claim's universal. -/
theorem getPlanCredits_prototype_member_not_zero :
    "toString" ∉ ["plan_Q30DrDwrdv5sUN", "plan_Q30G5R2vlZl9XS", "plan_Q30GQUMPYLZMYj"]
    ∧ getPlanCreditsJs "toString" = .inheritedMember "toString"
    ∧ getPlanCreditsJs "toString" ≠ .num 0
    ∧ handleSubscriptionChargedJs ⟨"toString", 5, "user_1"⟩ sampleUser
        = .error incrementTypeError :=
  ⟨by decide, rfl, by decide, rfl⟩

/-- C10: the `subscription.charged` handler mutates only `nextBillingDate`,
`currentEnd`, `lastChargeDate` and the credits counter; `status`, `id`,
`plan` and every other subscription field are unchanged, so a charged event
on a cancelled or paused subscription still grants credits and leaves the
status as it was. -/
theorem handleSubscriptionCharged_frame (p : ChargedSubscription) (u : UserDoc) :
    ((handleSubscriptionCharged p u).subscription.status = u.subscription.status)
    ∧ ((handleSubscriptionCharged p u).subscription.id = u.subscription.id)
    ∧ ((handleSubscriptionCharged p u).subscription.plan = u.subscription.plan)
    ∧ ((handleSubscriptionCharged p u).subscription.startedAt = u.subscription.startedAt)
    ∧ ((handleSubscriptionCharged p u).subscription.startAt = u.subscription.startAt)
    ∧ ((handleSubscriptionCharged p u).subscription.type = u.subscription.type)
    ∧ ((handleSubscriptionCharged p u).subscription.paymentId = u.subscription.paymentId)
    ∧ ((handleSubscriptionCharged p u).subscription.cancelledAt = u.subscription.cancelledAt)
    ∧ ((handleSubscriptionCharged p u).subscription.pausedAt = u.subscription.pausedAt)
    ∧ ((handleSubscriptionCharged p u).subscription.resumedAt = u.subscription.resumedAt)
    ∧ ((handleSubscriptionCharged p u).subscription.nextBillingDate
        = .date (p.current_end * 1000))
    ∧ ((handleSubscriptionCharged p u).subscription.currentEnd = p.current_end)
    ∧ ((handleSubscriptionCharged p u).subscription.lastChargeDate = .serverNow)
    ∧ ((handleSubscriptionCharged p u).credits = u.credits + getPlanCredits p.plan_id) :=
  ⟨rfl, rfl, rfl, rfl, rfl, rfl, rfl, rfl, rfl, rfl, rfl, rfl, rfl, rfl⟩

/-- C1 (amended): the three verification endpoints accept exactly the
requests whose signature equals the lowercase-hex HMAC-SHA256 of the
canonical payload under the shared secret — except that the
update-user-credits endpoint also accepts the literal signature value
`upi_payment`, skipping verification entirely.  On a signature mismatch
(outside the bypass) each endpoint responds 400 and the user document is
unchanged. -/
theorem signature_gate_characterization
    (secret : String) (o p s subId : Option String)
    (sub : GatewaySub) (user : UserDoc) :
    ((razorpayVerify secret o p s).success = true ↔
      truthy o = true ∧ truthy p = true ∧ truthy s = true ∧
      s = some (SHA256.hmacSha256Hex secret (jsStr o ++ "|" ++ jsStr p)))
    ∧ (s ≠ some (SHA256.hmacSha256Hex secret (jsStr o ++ "|" ++ jsStr p)) →
        (razorpayVerify secret o p s).statusCode = 400)
    ∧ ((updateUserCredits secret p o s).success = true ↔
        s = some "upi_payment" ∨
        s = some (SHA256.hmacSha256Hex secret (jsStr o ++ "|" ++ jsStr p)))
    ∧ (s ≠ some "upi_payment" →
       s ≠ some (SHA256.hmacSha256Hex secret (jsStr o ++ "|" ++ jsStr p)) →
        (updateUserCredits secret p o s).statusCode = 400)
    ∧ ((verifySubscription secret p subId s sub user).1.success = true ↔
        truthy p = true ∧ truthy subId = true ∧ truthy s = true ∧
        s = some (SHA256.hmacSha256Hex secret (jsStr p ++ "|" ++ jsStr subId)))
    ∧ (s ≠ some (SHA256.hmacSha256Hex secret (jsStr p ++ "|" ++ jsStr subId)) →
        (verifySubscription secret p subId s sub user).1.statusCode = 400 ∧
        (verifySubscription secret p subId s sub user).2 = user) := by
  refine ⟨?_, ?_, ?_, ?_, ?_, ?_⟩
  · by_cases hs : s = some (SHA256.hmacSha256Hex secret (jsStr o ++ "|" ++ jsStr p))
    · subst hs
      cases ho : truthy o <;> cases hp : truthy p <;>
        simp [razorpayVerify, VerifyResp.success, ho, hp, truthy_hmac]
    · cases ho : truthy o <;> cases hp : truthy p <;> cases ht : truthy s <;>
        simp [razorpayVerify, VerifyResp.success, ho, hp, ht, hs]
  · intro hs
    cases ho : truthy o <;> cases hp : truthy p <;> cases ht : truthy s <;>
      simp [razorpayVerify, VerifyResp.statusCode, ho, hp, ht, hs]
  · by_cases hu : s = some "upi_payment"
    · simp [updateUserCredits, CreditsResp.success, hu]
    · by_cases hs : s = some (SHA256.hmacSha256Hex secret (jsStr o ++ "|" ++ jsStr p)) <;>
        simp [updateUserCredits, CreditsResp.success, hu, hs]
  · intro hu hs
    simp [updateUserCredits, CreditsResp.statusCode, hu, hs]
  · by_cases hs : s = some (SHA256.hmacSha256Hex secret (jsStr p ++ "|" ++ jsStr subId))
    · subst hs
      cases hp : truthy p <;> cases hi : truthy subId <;>
        simp [verifySubscription, SubVerifyResp.success, hp, hi, truthy_hmac]
    · cases hp : truthy p <;> cases hi : truthy subId <;> cases ht : truthy s <;>
        simp [verifySubscription, SubVerifyResp.success, hp, hi, ht, hs]
  · intro hs
    cases hp : truthy p <;> cases hi : truthy subId <;> cases ht : truthy s <;>
      simp [verifySubscription, SubVerifyResp.statusCode, hp, hi, ht, hs]

/-- C1 witness: the characterization applied at concrete inputs, with the
mismatch hypotheses discharged through the digest-length lemma. -/
theorem signature_gate_characterization_witness :
    (verifySubscription "k" (some "p1") (some "sub1") (some "zz")
        sampleSub sampleUser).1.statusCode = 400
    ∧ (verifySubscription "k" (some "p1") (some "sub1") (some "zz")
        sampleSub sampleUser).2 = sampleUser
    ∧ (updateUserCredits "k" (some "p1") (some "o1") (some "zz")).statusCode = 400
    ∧ (razorpayVerify "k" (some "o1") (some "p1") (some "zz")).statusCode = 400 := by
  have h := signature_gate_characterization "k" (some "o1") (some "p1")
    (some "zz") (some "sub1") sampleSub sampleUser
  have hne1 : (some "zz" : Option String)
      ≠ some (SHA256.hmacSha256Hex "k" (jsStr (some "p1") ++ "|" ++ jsStr (some "sub1"))) :=
    fun he => SHA256.hmacSha256Hex_ne_of_length _ _ (by decide) (Option.some.inj he)
  have hne2 : (some "zz" : Option String)
      ≠ some (SHA256.hmacSha256Hex "k" (jsStr (some "o1") ++ "|" ++ jsStr (some "p1"))) :=
    fun he => SHA256.hmacSha256Hex_ne_of_length _ _ (by decide) (Option.some.inj he)
  have hneu : (some "zz" : Option String) ≠ some "upi_payment" := by simp
  exact ⟨(h.2.2.2.2.2 hne1).1, (h.2.2.2.2.2 hne1).2,
         h.2.2.2.1 hneu hne2, h.2.1 hne2⟩

/-- C1 counterexample: the literal signature value `upi_payment` is accepted
by the update-user-credits endpoint although it differs from the HMAC-SHA256
digest of the canonical payload (every such digest has 64 hex characters),
refuting the claim that no signature value bypasses the check. -/
theorem upi_payment_bypasses_signature_check :
    (updateUserCredits "secret" (some "pay_1") (some "order_1")
        (some "upi_payment")).success = true
    ∧ (updateUserCredits "secret" (some "pay_1") (some "order_1")
        (some "upi_payment")).statusCode = 200
    ∧ "upi_payment"
        ≠ SHA256.hmacSha256Hex "secret" (jsStr (some "order_1") ++ "|" ++ jsStr (some "pay_1")) :=
  ⟨rfl, rfl, SHA256.hmacSha256Hex_ne_of_length _ _ (by decide)⟩

/-- C2 (amended): the webhook endpoint verifies the `x-razorpay-signature`
header against the HMAC-SHA256 of the re-serialization
`JSON.stringify(req.body)` of the parsed body, not of the raw received
bytes; it accepts exactly when the header equals that digest and otherwise
responds 400 without invoking an event handler. -/
theorem webhook_gate_characterization (ws : String)
    (hws : truthy (some ws) = true) (body : Json) (sig : Option String) :
    ((webhooksRazorpay (some ws) body sig).statusCode = 200 ↔
      sig = some (SHA256.hmacSha256Hex ws (Json.stringify body)))
    ∧ (sig ≠ some (SHA256.hmacSha256Hex ws (Json.stringify body)) →
        (webhooksRazorpay (some ws) body sig).statusCode = 400 ∧
        (webhooksRazorpay (some ws) body sig).handlerInvoked = false) := by
  by_cases hs : sig = some (SHA256.hmacSha256Hex ws (Json.stringify body)) <;>
    simp [webhooksRazorpay, jsStr, hws, hs]

/-- C2 witness: the webhook gate applied at a concrete body and a concrete
non-digest header value. -/
theorem webhook_gate_characterization_witness :
    (webhooksRazorpay (some "whsec") (Json.obj .nil) (some "bad")).statusCode = 400
    ∧ (webhooksRazorpay (some "whsec") (Json.obj .nil) (some "bad")).handlerInvoked
        = false := by
  have h := webhook_gate_characterization "whsec" (by decide) (Json.obj .nil) (some "bad")
  exact h.2 (fun he => SHA256.hmacSha256Hex_ne_of_length _ _ (by decide) (Option.some.inj he))

/-- C2 counterexample: a request whose raw received bytes contain a space is
parsed and re-serialized without it, and a signature computed over those
different re-serialized bytes verifies — refuting the claim that every
request whose signature was computed over bytes differing from the exact
received bytes is rejected. -/
theorem webhook_accepts_signature_over_different_bytes :
    jsonParse "\x7b\"event\": \"subscription.charged\"\x7d"
      = some (Json.obj (.cons "event" (.str "subscription.charged") .nil))
    ∧ Json.stringify (Json.obj (.cons "event" (.str "subscription.charged") .nil))
        ≠ "\x7b\"event\": \"subscription.charged\"\x7d"
    ∧ (webhooksRazorpay (some "whsec")
        (Json.obj (.cons "event" (.str "subscription.charged") .nil))
        (some (SHA256.hmacSha256Hex "whsec"
          (Json.stringify
            (Json.obj (.cons "event" (.str "subscription.charged") .nil)))))).statusCode
        = 200
    ∧ (webhooksRazorpay (some "whsec")
        (Json.obj (.cons "event" (.str "subscription.charged") .nil))
        (some (SHA256.hmacSha256Hex "whsec"
          (Json.stringify
            (Json.obj (.cons "event" (.str "subscription.charged") .nil)))))).handlerInvoked
        = true := by
  refine ⟨rfl, by decide, ?_, ?_⟩
  · simp [webhooksRazorpay, jsStr, truthy]
  · simp [webhooksRazorpay, jsStr, truthy, Json.getField, JFields.lookup, webhookEvents]

/-- C7: a verify-subscription request with all three fields present and a
valid signature transitions the stored subscription sub-record to status
`active`, increments credits by the plan's grant, derives the next billing
date from the gateway-reported `current_end` and records the payment id. -/
theorem verifySubscription_activates
    (secret : String) (paymentId subscriptionId signature : Option String)
    (sub : GatewaySub) (user : UserDoc)
    (h1 : truthy paymentId = true) (h2 : truthy subscriptionId = true)
    (h3 : truthy signature = true)
    (hsig : signature
      = some (SHA256.hmacSha256Hex secret (jsStr paymentId ++ "|" ++ jsStr subscriptionId))) :
    ((verifySubscription secret paymentId subscriptionId signature sub user).2.subscription.status
        = "active")
    ∧ ((verifySubscription secret paymentId subscriptionId signature sub user).2.credits
        = user.credits + getPlanCredits sub.plan_id)
    ∧ ((verifySubscription secret paymentId subscriptionId signature sub user).2.subscription.nextBillingDate
        = .date (sub.current_end * 1000))
    ∧ ((verifySubscription secret paymentId subscriptionId signature sub user).2.subscription.currentEnd
        = sub.current_end)
    ∧ ((verifySubscription secret paymentId subscriptionId signature sub user).2.subscription.paymentId
        = some (jsStr paymentId))
    ∧ ((verifySubscription secret paymentId subscriptionId signature sub user).2.subscription.plan
        = sub.plan_id)
    ∧ ((verifySubscription secret paymentId subscriptionId signature sub user).1
        = .activated (sub.current_end * 1000) sub.current_end) := by
  subst hsig
  simp [verifySubscription, h1, h2, truthy_hmac]

/-- C7 witness: a concrete verify-subscription request carrying the genuine
HMAC-SHA256 signature of its canonical payload. -/
theorem verifySubscription_activates_witness :
    ((verifySubscription "sec" (some "p1") (some "s1")
        (some (SHA256.hmacSha256Hex "sec" ("p1" ++ "|" ++ "s1")))
        sampleSub sampleUser).2.subscription.status = "active")
    ∧ ((verifySubscription "sec" (some "p1") (some "s1")
        (some (SHA256.hmacSha256Hex "sec" ("p1" ++ "|" ++ "s1")))
        sampleSub sampleUser).2.credits
          = sampleUser.credits + getPlanCredits sampleSub.plan_id) := by
  have h := verifySubscription_activates "sec" (some "p1") (some "s1")
    (some (SHA256.hmacSha256Hex "sec" ("p1" ++ "|" ++ "s1"))) sampleSub sampleUser
    (by decide) (by decide) (truthy_hmac "sec" ("p1" ++ "|" ++ "s1")) rfl
  exact ⟨h.1, h.2.1⟩

/-- C8: a cancel-subscription request naming one of the recognized mock/test
subscription identifiers (with a user id present) returns success without
the gateway client being called and without the document store being
mutated, for every gateway behaviour. -/
theorem cancelSubscription_mock_no_gateway
    (subscriptionId userId : Option String) (g : Bool) (user : UserDoc)
    (h1 : truthy subscriptionId = true) (h2 : truthy userId = true)
    (hm : jsStr subscriptionId ∈ mockSubscriptionIds) :
    ((cancelSubscription subscriptionId userId g user).resp.success = true)
    ∧ ((cancelSubscription subscriptionId userId g user).gatewayCalled = false)
    ∧ ((cancelSubscription subscriptionId userId g user).user = user) := by
  simp [cancelSubscription, CancelResp.success, h1, h2, hm]

/-- C8 witness: the mock path evaluated at the identifier
`test-subscription-id`. -/
theorem cancelSubscription_mock_no_gateway_witness :
    ((cancelSubscription (some "test-subscription-id") (some "user_1") true
        sampleUser).resp.success = true)
    ∧ ((cancelSubscription (some "test-subscription-id") (some "user_1") true
        sampleUser).gatewayCalled = false)
    ∧ ((cancelSubscription (some "test-subscription-id") (some "user_1") true
        sampleUser).user = sampleUser) :=
  cancelSubscription_mock_no_gateway (some "test-subscription-id") (some "user_1")
    true sampleUser (by decide) (by decide) (by decide)

end Backend
